import Mathlib

/-!
Shallow embedding of the Chioma rental-agreement and escrow contracts
(`src/contract/contracts/chioma`, `src/contract/contracts/escrow`).

Addresses are modelled as natural numbers, ledger timestamps as `Nat`
(`u64`), amounts as `Int` (`i128`, only compared, never combined
arithmetically), and the agreement counter as a `Nat` carrying `u32`
semantics with an explicit trap on overflow. Each state-mutating
operation is a pure function threading the store state and returning
the (possibly updated) state together with an outcome; a `trap`
outcome models a host panic (failed `require_auth`, arithmetic
overflow with overflow checks enabled), which the host rolls back.
-/

namespace Chioma

/-- Simple association-list lookup keyed by decidable equality,
modelling `env.storage().get` on a keyed record store. -/
def slookup {κ α : Type} [DecidableEq κ] : List (κ × α) → κ → Option α
  | [], _ => none
  | (k, v) :: rest, key => if k = key then some v else slookup rest key

/-- Removes every binding of `key`, helper for `sset`. -/
def serase {κ α : Type} [DecidableEq κ] : List (κ × α) → κ → List (κ × α)
  | [], _ => []
  | (k, v) :: rest, key =>
    if k = key then serase rest key else (k, v) :: serase rest key

/-- Association-list overwrite, modelling `env.storage().set`. -/
def sset {κ α : Type} [DecidableEq κ] (l : List (κ × α)) (key : κ) (v : α) :
    List (κ × α) :=
  (key, v) :: serase l key

/-- Agreement lifecycle status. Translated from the `AgreementStatus`
variants exercised in `lib.rs`, `test.rs` and `tests.rs` (Draft on
creation, Pending before signing, Active after signing). -/
inductive AgreementStatus where
  | Draft
  | Pending
  | Active
deriving DecidableEq, Repr

/-- Modelled from the spec: the missing `types.rs` defines
`RentAgreement`. Fields are taken from the record construction in
`lib.rs` (`create_agreement`), plus the optional `signed_at`
timestamp the spec's data model and the `tests.rs` variant require
("signed_at (optional timestamp, set exactly once)"). -/
structure RentAgreement where
  agreement_id : String
  landlord : Nat
  tenant : Nat
  agent : Option Nat
  monthly_rent : Int
  security_deposit : Int
  start_date : Nat
  end_date : Nat
  agent_commission_rate : Nat
  status : AgreementStatus
  signed_at : Option Nat
deriving DecidableEq, Repr

/-- Error taxonomy of the rental contract, translated from
`errors.rs` (`RentalError`) and the `Error` enum in `lib.rs`. -/
inductive RentalError where
  | AlreadyInitialized
  | InvalidAdmin
  | InvalidConfig
  | AgreementAlreadyExists
  | InvalidAmount
  | InvalidDate
  | InvalidCommissionRate
  | AgreementNotActive
  | AgreementNotFound
  | NotTenant
  | InvalidState
  | Expired
deriving DecidableEq, Repr

/-- Outcome of one contract invocation: `ok`, a typed error returned
to the caller, or `trap` for a host panic (failed authorization or
arithmetic overflow), which aborts the transaction. -/
inductive Outcome where
  | ok
  | err (e : RentalError)
  | trap
deriving DecidableEq, Repr

/-- Store state of the rental contract: the persistent
`DataKey::Agreement(id)` records and the instance
`DataKey::AgreementCount` counter (absent modelled as `0`, matching
`unwrap_or(0)` in `lib.rs`). -/
structure RentalState where
  agreements : List (String × RentAgreement)
  count : Nat
deriving DecidableEq, Repr

/-- The empty store. -/
def RentalState.empty : RentalState := ⟨[], 0⟩

/-- Largest value of the `u32` agreement counter. -/
def UINT32_MAX : Nat := 4294967295

/-- Parameter validation, translated from
`validate_agreement_params` in `lib.rs` lines 100-120. Returns
`none` on success and `some e` for the first failing check. -/
def validate_agreement_params (monthly_rent security_deposit : Int)
    (start_date end_date : Nat) (agent_commission_rate : Nat) :
    Option RentalError :=
  if monthly_rent ≤ 0 ∨ security_deposit < 0 then
    some .InvalidAmount
  else if start_date ≥ end_date then
    some .InvalidDate
  else if agent_commission_rate > 100 then
    some .InvalidCommissionRate
  else
    none

/-- `create_agreement`, translated from `lib.rs` lines 43-98.
`tenant_authorized` models the host's answer to
`tenant.require_auth()`; its failure is a trap. The duplicate check
precedes all writes; the agreement record is written before the
counter is read, incremented (trapping at `u32::MAX`) and written
back. -/
def create_agreement (st : RentalState) (tenant_authorized : Bool)
    (agreement_id : String) (landlord tenant : Nat) (agent : Option Nat)
    (monthly_rent security_deposit : Int) (start_date end_date : Nat)
    (agent_commission_rate : Nat) : RentalState × Outcome :=
  if ¬ tenant_authorized then
    (st, .trap)
  else
    match validate_agreement_params monthly_rent security_deposit
        start_date end_date agent_commission_rate with
    | some e => (st, .err e)
    | none =>
      if (slookup st.agreements agreement_id).isSome then
        (st, .err .AgreementAlreadyExists)
      else
        let agreement : RentAgreement :=
          { agreement_id := agreement_id
            landlord := landlord
            tenant := tenant
            agent := agent
            monthly_rent := monthly_rent
            security_deposit := security_deposit
            start_date := start_date
            end_date := end_date
            agent_commission_rate := agent_commission_rate
            status := .Draft
            signed_at := none }
        let st1 : RentalState :=
          { st with agreements := sset st.agreements agreement_id agreement }
        if st1.count ≥ UINT32_MAX then
          (st1, .trap)
        else
          ({ st1 with count := st1.count + 1 }, .ok)

/-- Modelled from the spec: `get_agreement` appears only in the
missing variant of the contract (called from `tests.rs`); it is the
read-only lookup of an agreement record by identifier. -/
def get_agreement (st : RentalState) (agreement_id : String) :
    Option RentAgreement :=
  slookup st.agreements agreement_id

/-- The store rewrite performed by a successful `sign_agreement`:
the agreement becomes Active with `signed_at` set to the current
ledger time, and is written back under its identifier. -/
def signAgreementUpdate (st : RentalState) (agreement_id : String)
    (a : RentAgreement) (now : Nat) : RentalState :=
  let a2 : RentAgreement := { a with status := .Active, signed_at := some now }
  { st with agreements := sset st.agreements agreement_id a2 }

/-- Modelled from the spec: `sign_agreement` lives in the missing
variant of the contract (exercised by `tests.rs`). Steps follow
spec section 4.2: tenant authorization (trap on failure), then
existence, identity, state and expiry checks in that order, then the
transition to Active with `signed_at` set to the current ledger
time. -/
def sign_agreement (st : RentalState) (tenant_authorized : Bool)
    (tenant : Nat) (agreement_id : String) (now : Nat) :
    RentalState × Outcome :=
  if ¬ tenant_authorized then
    (st, .trap)
  else
    match slookup st.agreements agreement_id with
    | none => (st, .err .AgreementNotFound)
    | some a =>
      if a.tenant ≠ tenant then
        (st, .err .NotTenant)
      else if a.status ≠ .Pending then
        (st, .err .InvalidState)
      else if now > a.end_date then
        (st, .err .Expired)
      else
        (signAgreementUpdate st agreement_id a now, .ok)

/-- Escrow lifecycle status. Modelled from the spec: the `escrow`
module referenced by `lib.rs` is not under `src/`; the variants
(Pending, Funded, Released, Disputed, Refunded) are those exercised
by `test.rs` and `tests.rs` and listed in the spec's data model. -/
inductive EscrowStatus where
  | Pending
  | Funded
  | Released
  | Disputed
  | Refunded
deriving DecidableEq, Repr

/-- Escrow error taxonomy. Modelled from the spec: the `EscrowError`
enum lives in the missing `escrow` module; the variants are those
the spec's error taxonomy and the tests name. -/
inductive EscrowError where
  | EscrowNotFound
  | InsufficientFunds
  | InvalidSigner
  | AlreadySigned
  | NotAuthorized
  | EmptyDisputeReason
  | InvalidState
deriving DecidableEq, Repr

/-- Modelled from the spec: the 32-byte escrow identifier is
"deterministically derived from the inputs plus a disambiguator
(e.g., current sequence/timestamp)". The derivation code is in the
missing `escrow` module, so the identifier is modelled as the tuple
of derivation inputs itself — an injective stand-in for the
content-derived handle. -/
structure EscrowId where
  depositor : Nat
  beneficiary : Nat
  arbiter : Nat
  amount : Int
  token : Nat
  timestamp : Nat
deriving DecidableEq, Repr

/-- Modelled from the spec: the `Escrow` record of the missing
`escrow` module, with the fields asserted by `test.rs` and the
`escrow/src/tests.rs` test fixture (id, depositor, beneficiary,
arbiter, amount, token, status, created_at, dispute_reason). -/
structure Escrow where
  id : EscrowId
  depositor : Nat
  beneficiary : Nat
  arbiter : Nat
  amount : Int
  token : Nat
  status : EscrowStatus
  created_at : Nat
  dispute_reason : Option String
deriving DecidableEq, Repr

/-- Store state of the escrow engine: escrow records keyed by
identifier, and the approval sets keyed by (escrow identifier,
release target). Modelled from the spec's ApprovalSet: "per
(escrow, release-target) mapping from signer address" — here the
list of distinct approving signers. -/
structure EscrowState where
  escrows : List (EscrowId × Escrow)
  approvals : List ((EscrowId × Nat) × List Nat)
deriving DecidableEq, Repr

/-- The empty escrow store. -/
def EscrowState.empty : EscrowState := ⟨[], []⟩

/-- Modelled from the spec: the identifier derivation of
`EscrowContract::create`, "deterministically derived from the inputs
plus a disambiguator (e.g., current sequence/timestamp)". -/
def deriveEscrowId (depositor beneficiary arbiter : Nat) (amount : Int)
    (token now : Nat) : EscrowId :=
  { depositor := depositor
    beneficiary := beneficiary
    arbiter := arbiter
    amount := amount
    token := token
    timestamp := now }

/-- The freshly created escrow record: status Pending, created at
`now`, no dispute reason. -/
def newEscrow (depositor beneficiary arbiter : Nat) (amount : Int)
    (token now : Nat) : Escrow :=
  { id := deriveEscrowId depositor beneficiary arbiter amount token now
    depositor := depositor
    beneficiary := beneficiary
    arbiter := arbiter
    amount := amount
    token := token
    status := .Pending
    created_at := now
    dispute_reason := none }

/-- Modelled from the spec: `EscrowContract::create` (missing
`escrow` module). Checks `amount > 0` (else InsufficientFunds) and
`depositor ≠ beneficiary` (else InvalidSigner), then persists a
fresh Pending record under the derived identifier. -/
def create_escrow (st : EscrowState) (depositor beneficiary arbiter : Nat)
    (amount : Int) (token : Nat) (now : Nat) :
    EscrowState × Except EscrowError EscrowId :=
  if amount ≤ 0 then
    (st, .error .InsufficientFunds)
  else if depositor = beneficiary then
    (st, .error .InvalidSigner)
  else
    let id := deriveEscrowId depositor beneficiary arbiter amount token now
    let e := newEscrow depositor beneficiary arbiter amount token now
    ({ st with escrows := sset st.escrows id e }, .ok id)

/-- Modelled from the spec: `EscrowContract::fund_escrow` (missing
`escrow` module). EscrowNotFound if absent; caller must be the
depositor, else NotAuthorized; InvalidState unless Pending; then
status becomes Funded. -/
def fund_escrow (st : EscrowState) (id : EscrowId) (caller : Nat) :
    EscrowState × Option EscrowError :=
  match slookup st.escrows id with
  | none => (st, some .EscrowNotFound)
  | some e =>
    if caller ≠ e.depositor then
      (st, some .NotAuthorized)
    else if e.status ≠ .Pending then
      (st, some .InvalidState)
    else
      let e2 : Escrow := { e with status := .Funded }
      ({ st with escrows := sset st.escrows id e2 }, none)

/-- Signers recorded toward releasing escrow `id` to `target`. -/
def signersFor (st : EscrowState) (id : EscrowId) (target : Nat) :
    List Nat :=
  (slookup st.approvals (id, target)).getD []

/-- Number of distinct approving signers for one release target. -/
def approvalCount (st : EscrowState) (id : EscrowId) (target : Nat) : Nat :=
  (signersFor st id target).length

/-- Modelled from the spec: `EscrowContract::get_approval_count`
(missing `escrow` module); read-only, EscrowNotFound if absent. -/
def get_approval_count (st : EscrowState) (id : EscrowId) (target : Nat) :
    Except EscrowError Nat :=
  match slookup st.escrows id with
  | none => .error .EscrowNotFound
  | some _ => .ok (approvalCount st id target)

/-- Removes every approval record belonging to escrow `id`. -/
def clearApprovals : List ((EscrowId × Nat) × List Nat) → EscrowId →
    List ((EscrowId × Nat) × List Nat)
  | [], _ => []
  | (kk, sg) :: rest, id =>
    if kk.1 = id then clearApprovals rest id
    else (kk, sg) :: clearApprovals rest id

/-- Modelled from the spec: `EscrowContract::approve_release`
(missing `escrow` module). EscrowNotFound if absent; InvalidState
unless Funded; caller must be one of the three parties, else
NotAuthorized; `release_to` must be depositor or beneficiary, else
InvalidSigner; AlreadySigned if this caller already approved this
target; otherwise the approval is recorded, and once the distinct
approver count for this target reaches 2 the status atomically
becomes Released and all approval records of the escrow are
cleared. -/
def approve_release (st : EscrowState) (id : EscrowId) (caller : Nat)
    (release_to : Nat) : EscrowState × Option EscrowError :=
  match slookup st.escrows id with
  | none => (st, some .EscrowNotFound)
  | some e =>
    if e.status ≠ .Funded then
      (st, some .InvalidState)
    else if ¬ (caller = e.depositor ∨ caller = e.beneficiary ∨
        caller = e.arbiter) then
      (st, some .NotAuthorized)
    else if ¬ (release_to = e.depositor ∨ release_to = e.beneficiary) then
      (st, some .InvalidSigner)
    else
      let signers := signersFor st id release_to
      if caller ∈ signers then
        (st, some .AlreadySigned)
      else
        let signers2 := caller :: signers
        if signers2.length ≥ 2 then
          let e2 : Escrow := { e with status := .Released }
          ({ escrows := sset st.escrows id e2
             approvals := clearApprovals st.approvals id }, none)
        else
          ({ st with approvals := sset st.approvals (id, release_to) signers2 },
            none)

/-- Modelled from the spec: `DisputeHandler::initiate_dispute`
(missing `escrow` module). EscrowNotFound if absent; InvalidState
unless Funded; caller must be depositor or beneficiary (the arbiter
cannot initiate), else NotAuthorized; EmptyDisputeReason for a
zero-length reason; otherwise status becomes Disputed with the
reason recorded. -/
def initiate_dispute (st : EscrowState) (id : EscrowId) (caller : Nat)
    (reason : String) : EscrowState × Option EscrowError :=
  match slookup st.escrows id with
  | none => (st, some .EscrowNotFound)
  | some e =>
    if e.status ≠ .Funded then
      (st, some .InvalidState)
    else if ¬ (caller = e.depositor ∨ caller = e.beneficiary) then
      (st, some .NotAuthorized)
    else if reason.length = 0 then
      (st, some .EmptyDisputeReason)
    else
      let e2 : Escrow := { e with status := .Disputed, dispute_reason := some reason }
      ({ st with escrows := sset st.escrows id e2 }, none)

/-- Modelled from the spec: `DisputeHandler::resolve_dispute`
(missing `escrow` module). EscrowNotFound if absent; InvalidState
unless Disputed; caller must be the arbiter, else NotAuthorized;
otherwise status becomes Released and the dispute reason is
cleared (the release target decision is delegated to the external
asset-transfer collaborator and leaves no trace in the record). -/
def resolve_dispute (st : EscrowState) (id : EscrowId) (caller : Nat)
    (release_to : Nat) : EscrowState × Option EscrowError :=
  match slookup st.escrows id with
  | none => (st, some .EscrowNotFound)
  | some e =>
    if e.status ≠ .Disputed then
      (st, some .InvalidState)
    else if caller ≠ e.arbiter then
      (st, some .NotAuthorized)
    else
      let e2 : Escrow := { e with status := .Released, dispute_reason := none }
      ({ st with escrows := sset st.escrows id e2 }, none)

/-- Modelled from the spec: `EscrowContract::get_escrow` (missing
`escrow` module); read-only, EscrowNotFound if absent. -/
def get_escrow (st : EscrowState) (id : EscrowId) :
    Except EscrowError Escrow :=
  match slookup st.escrows id with
  | none => .error .EscrowNotFound
  | some e => .ok e

/-- Modelled from the spec: `DisputeHandler::is_disputed` (missing
`escrow` module); read-only projection of the status. -/
def is_disputed (st : EscrowState) (id : EscrowId) :
    Except EscrowError Bool :=
  match slookup st.escrows id with
  | none => .error .EscrowNotFound
  | some e => .ok (e.status = .Disputed)

/-- Modelled from the spec: `DisputeHandler::get_dispute_info`
(missing `escrow` module); read-only projection of the dispute
reason. -/
def get_dispute_info (st : EscrowState) (id : EscrowId) :
    Except EscrowError (Option String) :=
  match slookup st.escrows id with
  | none => .error .EscrowNotFound
  | some e => .ok e.dispute_reason

/-! ### Store lemmas -/

theorem slookup_sset_self {κ α : Type} [DecidableEq κ]
    (l : List (κ × α)) (k : κ) (v : α) :
    slookup (sset l k v) k = some v := by
  simp [sset, slookup]

theorem slookup_serase_of_ne {κ α : Type} [DecidableEq κ]
    (l : List (κ × α)) (k k' : κ) (h : k' ≠ k) :
    slookup (serase l k) k' = slookup l k' := by
  induction l with
  | nil => rfl
  | cons p rest ih =>
    obtain ⟨pk, pv⟩ := p
    by_cases hp : pk = k
    · subst hp
      have hk' : ¬ pk = k' := fun hc => h (hc ▸ rfl)
      simp [serase, slookup, hk', ih]
    · simp [serase, hp, slookup, ih]

theorem slookup_sset_other {κ α : Type} [DecidableEq κ]
    (l : List (κ × α)) (k k' : κ) (v : α) (h : k' ≠ k) :
    slookup (sset l k v) k' = slookup l k' := by
  have hk : ¬ k = k' := fun hc => h hc.symm
  simp only [sset, slookup, if_neg hk]
  exact slookup_serase_of_ne l k k' h

theorem mem_of_slookup {κ α : Type} [DecidableEq κ]
    {l : List (κ × α)} {k : κ} {v : α} (h : slookup l k = some v) :
    (k, v) ∈ l := by
  induction l with
  | nil => simp [slookup] at h
  | cons p rest ih =>
    obtain ⟨pk, pv⟩ := p
    by_cases hk : pk = k
    · subst hk
      simp [slookup] at h
      subst h
      exact List.mem_cons_self _ _
    · simp [slookup, hk] at h
      exact List.mem_cons_of_mem _ (ih h)

theorem mem_serase {κ α : Type} [DecidableEq κ]
    {l : List (κ × α)} {k : κ} {p : κ × α}
    (h : p ∈ serase l k) : p ∈ l := by
  induction l with
  | nil => simpa [serase] using h
  | cons q rest ih =>
    obtain ⟨qk, qv⟩ := q
    by_cases hq : qk = k
    · simp only [serase, if_pos hq] at h
      exact List.mem_cons_of_mem _ (ih h)
    · simp only [serase, if_neg hq] at h
      rcases List.mem_cons.mp h with h1 | h1
      · exact h1 ▸ List.mem_cons_self _ _
      · exact List.mem_cons_of_mem _ (ih h1)

theorem mem_sset {κ α : Type} [DecidableEq κ]
    {l : List (κ × α)} {k : κ} {v : α} {p : κ × α}
    (h : p ∈ sset l k v) : p = (k, v) ∨ p ∈ l := by
  rcases List.mem_cons.mp h with h1 | h1
  · exact Or.inl h1
  · exact Or.inr (mem_serase h1)

theorem slookup_clearApprovals (aps : List ((EscrowId × Nat) × List Nat))
    (id : EscrowId) (t : Nat) :
    slookup (clearApprovals aps id) (id, t) = none := by
  induction aps with
  | nil => rfl
  | cons p rest ih =>
    obtain ⟨pk, sg⟩ := p
    by_cases hp : pk.1 = id
    · simpa [clearApprovals, hp] using ih
    · have hne : ¬ pk = (id, t) := fun hc => hp (by rw [hc])
      simpa [clearApprovals, hp, slookup, hne] using ih

/-! ### Claim theorems -/

/-- C3: Parameter validation in create_agreement returns Ok iff
monthly_rent > 0, security_deposit ≥ 0, start_date < end_date, and
the commission rate is within the accepted bound (100 in the
deployed `lib.rs` profile); when several checks fail, the first
failing check in the order amount, date, commission rate determines
the returned error (InvalidAmount, then InvalidDate, then
InvalidCommissionRate). -/
theorem C3_validate_params_characterization
    (monthly_rent security_deposit : Int) (start_date end_date : Nat)
    (rate : Nat) :
    (validate_agreement_params monthly_rent security_deposit start_date
        end_date rate = none ↔
      (0 < monthly_rent ∧ 0 ≤ security_deposit ∧ start_date < end_date ∧
        rate ≤ 100)) ∧
    ((monthly_rent ≤ 0 ∨ security_deposit < 0) →
      validate_agreement_params monthly_rent security_deposit start_date
        end_date rate = some .InvalidAmount) ∧
    (0 < monthly_rent → 0 ≤ security_deposit → end_date ≤ start_date →
      validate_agreement_params monthly_rent security_deposit start_date
        end_date rate = some .InvalidDate) ∧
    (0 < monthly_rent → 0 ≤ security_deposit → start_date < end_date →
      100 < rate →
      validate_agreement_params monthly_rent security_deposit start_date
        end_date rate = some .InvalidCommissionRate) := by
  unfold validate_agreement_params
  split_ifs with h1 h2 h3 <;>
    refine ⟨?_, ?_, ?_, ?_⟩ <;>
    simp_all <;>
    omega

/-- C2: For every input on which create_agreement returns a typed
error (failed parameter validation or duplicate identifier), the
store is unchanged: no agreement record is written and the persisted
agreement counter keeps its value; a failed tenant authorization
traps before any mutation, likewise leaving the store unchanged. -/
theorem C2_create_agreement_error_no_mutation
    (st : RentalState) (auth : Bool) (agreement_id : String)
    (landlord tenant : Nat) (agent : Option Nat)
    (monthly_rent security_deposit : Int) (start_date end_date : Nat)
    (rate : Nat) :
    (∀ e : RentalError,
      (create_agreement st auth agreement_id landlord tenant agent
          monthly_rent security_deposit start_date end_date rate).2 = .err e →
      (create_agreement st auth agreement_id landlord tenant agent
          monthly_rent security_deposit start_date end_date rate).1 = st) ∧
    (auth = false →
      create_agreement st auth agreement_id landlord tenant agent
          monthly_rent security_deposit start_date end_date rate = (st, .trap)) := by
  constructor
  · intro e he
    by_cases hauth : auth = true
    · subst hauth
      rcases hv : validate_agreement_params monthly_rent security_deposit
          start_date end_date rate with _ | ve
      · by_cases hdup : (slookup st.agreements agreement_id).isSome
        · simp [create_agreement, hv, hdup]
        · by_cases hcnt : st.count ≥ UINT32_MAX
          · simp [create_agreement, hv, hdup, hcnt] at he
          · simp [create_agreement, hv, hdup, hcnt] at he
      · simp [create_agreement, hv]
    · have hfa : auth = false := by simpa using hauth
      subst hfa
      simp [create_agreement] at he
  · intro hfa
    subst hfa
    simp [create_agreement]

/-- C10: create_agreement increments the stored u32 agreement
counter with plain `count += 1`: when the persisted counter already
equals u32::MAX an otherwise-valid call traps on overflow instead of
returning a typed error, and the call completes with Ok exactly when
the counter is below u32::MAX. -/
theorem C10_counter_overflow
    (st : RentalState) (agreement_id : String) (landlord tenant : Nat)
    (agent : Option Nat) (monthly_rent security_deposit : Int)
    (start_date end_date : Nat) (rate : Nat)
    (hmr : 0 < monthly_rent) (hsd : 0 ≤ security_deposit)
    (hse : start_date < end_date) (hrate : rate ≤ 100)
    (habs : slookup st.agreements agreement_id = none) :
    (st.count = UINT32_MAX →
      (create_agreement st true agreement_id landlord tenant agent
          monthly_rent security_deposit start_date end_date rate).2 = .trap ∧
      ∀ e : RentalError,
        (create_agreement st true agreement_id landlord tenant agent
            monthly_rent security_deposit start_date end_date rate).2 ≠ .err e) ∧
    (st.count < UINT32_MAX →
      (create_agreement st true agreement_id landlord tenant agent
          monthly_rent security_deposit start_date end_date rate).2 = .ok) := by
  have hv : validate_agreement_params monthly_rent security_deposit
      start_date end_date rate = none := by
    unfold validate_agreement_params
    split_ifs with h1 h2 h3 <;> first | rfl | omega
  constructor
  · intro hmax
    have hge : st.count ≥ UINT32_MAX := le_of_eq hmax.symm
    refine ⟨?_, ?_⟩
    · simp [create_agreement, hv, habs, hge]
    · intro e
      simp [create_agreement, hv, habs, hge]
  · intro hlt
    have hge : ¬ st.count ≥ UINT32_MAX := by omega
    simp [create_agreement, hv, habs, hge]

/-- C6: For all valid inputs, a successful create_agreement stores a
record with status = Draft and signed_at = None (observable via
get_agreement), and increments the persisted global agreement
counter by exactly one, so the counter strictly increases. -/
theorem C6_create_agreement_success
    (st : RentalState) (agreement_id : String) (landlord tenant : Nat)
    (agent : Option Nat) (monthly_rent security_deposit : Int)
    (start_date end_date : Nat) (rate : Nat)
    (hmr : 0 < monthly_rent) (hsd : 0 ≤ security_deposit)
    (hse : start_date < end_date) (hrate : rate ≤ 100)
    (habs : slookup st.agreements agreement_id = none)
    (hcount : st.count < UINT32_MAX) :
    (create_agreement st true agreement_id landlord tenant agent
        monthly_rent security_deposit start_date end_date rate).2 = .ok ∧
    (∃ a : RentAgreement,
      get_agreement (create_agreement st true agreement_id landlord tenant agent
          monthly_rent security_deposit start_date end_date rate).1
        agreement_id = some a ∧
      a.status = .Draft ∧ a.signed_at = none) ∧
    (create_agreement st true agreement_id landlord tenant agent
        monthly_rent security_deposit start_date end_date rate).1.count =
      st.count + 1 := by
  have hv : validate_agreement_params monthly_rent security_deposit
      start_date end_date rate = none := by
    unfold validate_agreement_params
    split_ifs with h1 h2 h3 <;> first | rfl | omega
  have hge : ¬ st.count ≥ UINT32_MAX := by omega
  have hag : (create_agreement st true agreement_id landlord tenant agent
      monthly_rent security_deposit start_date end_date rate).1.agreements =
      sset st.agreements agreement_id
        { agreement_id := agreement_id, landlord := landlord,
          tenant := tenant, agent := agent, monthly_rent := monthly_rent,
          security_deposit := security_deposit, start_date := start_date,
          end_date := end_date, agent_commission_rate := rate,
          status := .Draft, signed_at := none } := by
    simp [create_agreement, hv, habs, hge]
  refine ⟨?_,
    ⟨{ agreement_id := agreement_id, landlord := landlord, tenant := tenant,
       agent := agent, monthly_rent := monthly_rent,
       security_deposit := security_deposit, start_date := start_date,
       end_date := end_date, agent_commission_rate := rate,
       status := .Draft, signed_at := none }, ?_, rfl, rfl⟩, ?_⟩
  · simp [create_agreement, hv, habs, hge]
  · unfold get_agreement
    rw [hag]
    exact slookup_sset_self _ _ _
  · simp [create_agreement, hv, habs, hge]

/-- C7: If create_agreement is called twice with the same identifier
(both calls otherwise valid), the second call fails with
AgreementAlreadyExists and the store is exactly the one left by the
first call, which still holds the first record. -/
theorem C7_duplicate_id_second_fails
    (st : RentalState) (agreement_id : String)
    (l1 t1 : Nat) (ag1 : Option Nat) (mr1 sd1 : Int) (s1 e1 r1 : Nat)
    (l2 t2 : Nat) (ag2 : Option Nat) (mr2 sd2 : Int) (s2 e2 r2 : Nat)
    (hmr1 : 0 < mr1) (hsd1 : 0 ≤ sd1) (hse1 : s1 < e1) (hr1 : r1 ≤ 100)
    (hmr2 : 0 < mr2) (hsd2 : 0 ≤ sd2) (hse2 : s2 < e2) (hr2 : r2 ≤ 100)
    (habs : slookup st.agreements agreement_id = none)
    (hcount : st.count < UINT32_MAX) :
    create_agreement
        (create_agreement st true agreement_id l1 t1 ag1 mr1 sd1 s1 e1 r1).1
        true agreement_id l2 t2 ag2 mr2 sd2 s2 e2 r2 =
      ((create_agreement st true agreement_id l1 t1 ag1 mr1 sd1 s1 e1 r1).1,
        .err .AgreementAlreadyExists) ∧
    (∃ a : RentAgreement,
      get_agreement
        (create_agreement
            (create_agreement st true agreement_id l1 t1 ag1 mr1 sd1 s1 e1 r1).1
            true agreement_id l2 t2 ag2 mr2 sd2 s2 e2 r2).1 agreement_id =
          some a ∧
      a.landlord = l1 ∧ a.tenant = t1 ∧ a.monthly_rent = mr1 ∧
      a.status = .Draft) := by
  have hv1 : validate_agreement_params mr1 sd1 s1 e1 r1 = none := by
    unfold validate_agreement_params
    split_ifs with h1 h2 h3 <;> first | rfl | omega
  have hv2 : validate_agreement_params mr2 sd2 s2 e2 r2 = none := by
    unfold validate_agreement_params
    split_ifs with h1 h2 h3 <;> first | rfl | omega
  have hge : ¬ st.count ≥ UINT32_MAX := by omega
  have hst1 : (create_agreement st true agreement_id l1 t1 ag1 mr1 sd1
      s1 e1 r1).1.agreements = sset st.agreements agreement_id
        { agreement_id := agreement_id, landlord := l1, tenant := t1,
          agent := ag1, monthly_rent := mr1, security_deposit := sd1,
          start_date := s1, end_date := e1, agent_commission_rate := r1,
          status := .Draft, signed_at := none } := by
    simp [create_agreement, hv1, habs, hge]
  have hfind : slookup (create_agreement st true agreement_id l1 t1 ag1
      mr1 sd1 s1 e1 r1).1.agreements agreement_id = some
        { agreement_id := agreement_id, landlord := l1, tenant := t1,
          agent := ag1, monthly_rent := mr1, security_deposit := sd1,
          start_date := s1, end_date := e1, agent_commission_rate := r1,
          status := .Draft, signed_at := none } := by
    rw [hst1]
    exact slookup_sset_self _ _ _
  have hsecond : create_agreement
      (create_agreement st true agreement_id l1 t1 ag1 mr1 sd1 s1 e1 r1).1
      true agreement_id l2 t2 ag2 mr2 sd2 s2 e2 r2 =
      ((create_agreement st true agreement_id l1 t1 ag1 mr1 sd1 s1 e1 r1).1,
        .err .AgreementAlreadyExists) := by
    conv_lhs => rw [create_agreement]
    simp [hv2, hfind]
  refine ⟨hsecond, ?_⟩
  rw [hsecond]
  exact ⟨_, hfind, rfl, rfl, rfl, rfl⟩

/-- C4: For every authorized call to sign_agreement, the returned
error respects the fixed check order existence before identity
before state before expiry: AgreementNotFound if the id is absent;
otherwise NotTenant if the stored tenant differs from the caller;
otherwise InvalidState if status ≠ Pending (covering Draft and
already-Active agreements alike); otherwise Expired if the current
time exceeds end_date; otherwise the agreement becomes Active with
signed_at set to the current time. No error mutates the store. -/
theorem C4_sign_agreement_check_order
    (st : RentalState) (tenant : Nat) (agreement_id : String) (now : Nat) :
    (slookup st.agreements agreement_id = none →
      sign_agreement st true tenant agreement_id now =
        (st, .err .AgreementNotFound)) ∧
    (∀ a : RentAgreement, slookup st.agreements agreement_id = some a →
      a.tenant ≠ tenant →
      sign_agreement st true tenant agreement_id now = (st, .err .NotTenant)) ∧
    (∀ a : RentAgreement, slookup st.agreements agreement_id = some a →
      a.tenant = tenant → a.status ≠ .Pending →
      sign_agreement st true tenant agreement_id now =
        (st, .err .InvalidState)) ∧
    (∀ a : RentAgreement, slookup st.agreements agreement_id = some a →
      a.tenant = tenant → a.status = .Pending → a.end_date < now →
      sign_agreement st true tenant agreement_id now = (st, .err .Expired)) ∧
    (∀ a : RentAgreement, slookup st.agreements agreement_id = some a →
      a.tenant = tenant → a.status = .Pending → now ≤ a.end_date →
      sign_agreement st true tenant agreement_id now =
        (signAgreementUpdate st agreement_id a now, .ok)) := by
  refine ⟨?_, ?_, ?_, ?_, ?_⟩
  · intro h
    simp [sign_agreement, h]
  · intro a ha hne
    simp [sign_agreement, ha, hne]
  · intro a ha hten hstat
    simp [sign_agreement, ha, hten, hstat]
  · intro a ha hten hstat hexp
    have : now > a.end_date := hexp
    simp [sign_agreement, ha, hten, hstat, this]
  · intro a ha hten hstat hexp
    have hng : ¬ now > a.end_date := by omega
    simp [sign_agreement, ha, hten, hstat, hng]

/-- C8: Escrow creation with amount not greater than 0 fails with
InsufficientFunds, and escrow creation with depositor equal to
beneficiary fails with InvalidSigner; in either case the store is
unchanged, so no escrow record is created. -/
theorem C8_create_escrow_validation (st : EscrowState)
    (depositor beneficiary arbiter : Nat) (amount : Int) (token now : Nat) :
    (amount ≤ 0 →
      create_escrow st depositor beneficiary arbiter amount token now =
        (st, .error .InsufficientFunds)) ∧
    (0 < amount → depositor = beneficiary →
      create_escrow st depositor beneficiary arbiter amount token now =
        (st, .error .InvalidSigner)) := by
  constructor
  · intro h
    simp [create_escrow, h]
  · intro h1 h2
    have hn : ¬ amount ≤ 0 := by omega
    simp [create_escrow, hn, h2]

/-- C9: Two escrow creations with identical depositor, beneficiary,
arbiter, amount and token performed at different ledger timestamps
both succeed, return distinct identifiers, and each identifier looks
up its own stored record. -/
theorem C9_unique_escrow_ids (st : EscrowState)
    (depositor beneficiary arbiter : Nat) (amount : Int) (token : Nat)
    (t1 t2 : Nat) (hamt : 0 < amount) (hdb : depositor ≠ beneficiary)
    (ht : t1 ≠ t2) :
    ∃ id1 id2 : EscrowId, ∃ e1 e2 : Escrow,
      (create_escrow st depositor beneficiary arbiter amount token t1).2 =
        .ok id1 ∧
      (create_escrow
          (create_escrow st depositor beneficiary arbiter amount token t1).1
          depositor beneficiary arbiter amount token t2).2 = .ok id2 ∧
      id1 ≠ id2 ∧
      get_escrow (create_escrow
          (create_escrow st depositor beneficiary arbiter amount token t1).1
          depositor beneficiary arbiter amount token t2).1 id1 = .ok e1 ∧
      e1.id = id1 ∧ e1.created_at = t1 ∧
      get_escrow (create_escrow
          (create_escrow st depositor beneficiary arbiter amount token t1).1
          depositor beneficiary arbiter amount token t2).1 id2 = .ok e2 ∧
      e2.id = id2 ∧ e2.created_at = t2 := by
  have hn : ¬ amount ≤ 0 := by omega
  have hids : deriveEscrowId depositor beneficiary arbiter amount token t1 ≠
      deriveEscrowId depositor beneficiary arbiter amount token t2 := by
    intro hc
    exact ht (congrArg EscrowId.timestamp hc)
  have h1 : (create_escrow st depositor beneficiary arbiter amount
      token t1).1.escrows = sset st.escrows
        (deriveEscrowId depositor beneficiary arbiter amount token t1)
        (newEscrow depositor beneficiary arbiter amount token t1) := by
    simp [create_escrow, hn, hdb]
  have h2 : (create_escrow
      (create_escrow st depositor beneficiary arbiter amount token t1).1
      depositor beneficiary arbiter amount token t2).1.escrows =
      sset (sset st.escrows
          (deriveEscrowId depositor beneficiary arbiter amount token t1)
          (newEscrow depositor beneficiary arbiter amount token t1))
        (deriveEscrowId depositor beneficiary arbiter amount token t2)
        (newEscrow depositor beneficiary arbiter amount token t2) := by
    simp [create_escrow, hn, hdb, h1]
  refine ⟨deriveEscrowId depositor beneficiary arbiter amount token t1,
    deriveEscrowId depositor beneficiary arbiter amount token t2,
    newEscrow depositor beneficiary arbiter amount token t1,
    newEscrow depositor beneficiary arbiter amount token t2,
    ?_, ?_, hids, ?_, rfl, rfl, ?_, rfl, rfl⟩
  · simp [create_escrow, hn, hdb]
  · simp [create_escrow, hn, hdb]
  · unfold get_escrow
    rw [h2, slookup_sset_other _ _ _ _ hids, slookup_sset_self]
  · unfold get_escrow
    rw [h2, slookup_sset_self]

/-- C1: For every escrow in Funded status, approve_release by a
caller who has already approved the same release_to fails with
AlreadySigned, leaving the state (hence the approval count for that
target) unchanged; a second distinct party approving the same
release_to atomically transitions the escrow to Released and clears
all approval records of the escrow; and an approval toward a target
with no prior approvers leaves the escrow Funded with count 1 for
that target, untouched counts for every other target — approvals
toward different targets never combine toward the 2-of-3 quorum. -/
theorem C1_approve_release_quorum :
    (∀ (st : EscrowState) (id : EscrowId) (e : Escrow) (caller t : Nat),
      slookup st.escrows id = some e → e.status = .Funded →
      (caller = e.depositor ∨ caller = e.beneficiary ∨ caller = e.arbiter) →
      (t = e.depositor ∨ t = e.beneficiary) →
      caller ∈ signersFor st id t →
      approve_release st id caller t = (st, some .AlreadySigned) ∧
      approvalCount (approve_release st id caller t).1 id t =
        approvalCount st id t) ∧
    (∀ (st : EscrowState) (id : EscrowId) (e : Escrow) (c1 caller t : Nat),
      slookup st.escrows id = some e → e.status = .Funded →
      (caller = e.depositor ∨ caller = e.beneficiary ∨ caller = e.arbiter) →
      (t = e.depositor ∨ t = e.beneficiary) →
      signersFor st id t = [c1] → caller ≠ c1 →
      (approve_release st id caller t).2 = none ∧
      slookup (approve_release st id caller t).1.escrows id =
        some ({ e with status := .Released }) ∧
      ∀ t2 : Nat, approvalCount (approve_release st id caller t).1 id t2 = 0) ∧
    (∀ (st : EscrowState) (id : EscrowId) (e : Escrow) (caller t t2 : Nat),
      slookup st.escrows id = some e → e.status = .Funded →
      (caller = e.depositor ∨ caller = e.beneficiary ∨ caller = e.arbiter) →
      (t = e.depositor ∨ t = e.beneficiary) →
      signersFor st id t = [] → t2 ≠ t →
      (approve_release st id caller t).2 = none ∧
      slookup (approve_release st id caller t).1.escrows id = some e ∧
      approvalCount (approve_release st id caller t).1 id t = 1 ∧
      approvalCount (approve_release st id caller t).1 id t2 =
        approvalCount st id t2) := by
  refine ⟨?_, ?_, ?_⟩
  · intro st id e caller t he hfund hparty htarget hmem
    have h : approve_release st id caller t = (st, some .AlreadySigned) := by
      simp [approve_release, he, hfund, hparty, htarget, hmem]
    exact ⟨h, by rw [h]⟩
  · intro st id e c1 caller t he hfund hparty htarget hsig hne
    have hmem : caller ∉ signersFor st id t := by
      rw [hsig]
      simp [hne]
    have hres : approve_release st id caller t =
        ({ escrows := sset st.escrows id ({ e with status := .Released }),
           approvals := clearApprovals st.approvals id }, none) := by
      simp [approve_release, he, hfund, hparty, htarget, hmem, hsig, hne]
    rw [hres]
    refine ⟨rfl, slookup_sset_self _ _ _, ?_⟩
    intro t2
    simp [approvalCount, signersFor, slookup_clearApprovals]
  · intro st id e caller t t2 he hfund hparty htarget hsig hne
    have hmem : caller ∉ signersFor st id t := by
      rw [hsig]
      simp
    have hres : approve_release st id caller t =
        ({ st with approvals := sset st.approvals (id, t) [caller] }, none) := by
      simp [approve_release, he, hfund, hparty, htarget, hmem, hsig]
    rw [hres]
    refine ⟨rfl, he, ?_, ?_⟩
    · simp [approvalCount, signersFor, slookup_sset_self]
    · have hkey : ((id, t2) : EscrowId × Nat) ≠ (id, t) := by
        intro hc
        exact hne (congrArg Prod.snd hc)
      simp [approvalCount, signersFor, slookup_sset_other _ _ _ _ hkey]

/-- The spec's record invariant: the dispute reason is present iff
the escrow is Disputed. -/
def disputeInv (e : Escrow) : Prop :=
  e.dispute_reason.isSome ↔ e.status = .Disputed

instance (e : Escrow) : Decidable (disputeInv e) := by
  unfold disputeInv
  infer_instance

/-- Every escrow record in the store satisfies `disputeInv`. -/
def escrowInv (st : EscrowState) : Prop :=
  ∀ p ∈ st.escrows, disputeInv p.2

instance (st : EscrowState) : Decidable (escrowInv st) := by
  unfold escrowInv
  infer_instance

theorem escrowInv_sset {l : List (EscrowId × Escrow)}
    (h : ∀ p ∈ l, disputeInv p.2) (id : EscrowId) {e2 : Escrow}
    (he2 : disputeInv e2) :
    ∀ p ∈ sset l id e2, disputeInv p.2 := by
  intro p hp
  rcases mem_sset hp with h1 | h1
  · rw [h1]
    exact he2
  · exact h p h1

/-- C5: Every escrow operation preserves the invariant that
dispute_reason is Some iff status = Disputed; moreover a successful
initiate_dispute leaves the escrow Disputed with the given reason
recorded, and a successful resolve_dispute leaves it Released with
the dispute reason cleared. -/
theorem C5_dispute_invariant (st : EscrowState) (hinv : escrowInv st)
    (id : EscrowId) (caller target depositor beneficiary arbiter : Nat)
    (amount : Int) (token now : Nat) (reason : String) :
    escrowInv (create_escrow st depositor beneficiary arbiter amount
      token now).1 ∧
    escrowInv (fund_escrow st id caller).1 ∧
    escrowInv (approve_release st id caller target).1 ∧
    escrowInv (initiate_dispute st id caller reason).1 ∧
    escrowInv (resolve_dispute st id caller target).1 ∧
    ((initiate_dispute st id caller reason).2 = none →
      ∃ e : Escrow,
        slookup (initiate_dispute st id caller reason).1.escrows id = some e ∧
        e.status = .Disputed ∧ e.dispute_reason = some reason) ∧
    ((resolve_dispute st id caller target).2 = none →
      ∃ e : Escrow,
        slookup (resolve_dispute st id caller target).1.escrows id = some e ∧
        e.status = .Released ∧ e.dispute_reason = none) := by
  refine ⟨?_, ?_, ?_, ?_, ?_, ?_, ?_⟩
  · by_cases h1 : amount ≤ 0
    · simpa [create_escrow, h1] using hinv
    · by_cases h2 : depositor = beneficiary
      · simpa [create_escrow, h1, h2] using hinv
      · have : (create_escrow st depositor beneficiary arbiter amount
            token now).1.escrows = sset st.escrows
              (deriveEscrowId depositor beneficiary arbiter amount token now)
              (newEscrow depositor beneficiary arbiter amount token now) := by
          simp [create_escrow, h1, h2]
        intro p hp
        rw [this] at hp
        exact escrowInv_sset hinv _ (by simp [disputeInv, newEscrow]) p hp
  · rcases he : slookup st.escrows id with _ | e
    · simpa [fund_escrow, he] using hinv
    · have hmem := hinv _ (mem_of_slookup he)
      by_cases h1 : caller ≠ e.depositor
      · simpa [fund_escrow, he, h1] using hinv
      · by_cases h2 : e.status ≠ .Pending
        · simpa [fund_escrow, he, h1, h2] using hinv
        · have hres : (fund_escrow st id caller).1.escrows =
              sset st.escrows id ({ e with status := .Funded }) := by
            simp [fund_escrow, he, h1, h2]
          intro p hp
          rw [hres] at hp
          have hnone : e.dispute_reason = none := by
            simp only [not_not] at h2
            rcases hr : e.dispute_reason with _ | r
            · rfl
            · exact absurd (hmem.mp (by simp [hr])) (by simp [h2])
          exact escrowInv_sset hinv _ (by simp [disputeInv, hnone]) p hp
  · rcases he : slookup st.escrows id with _ | e
    · simpa [approve_release, he] using hinv
    · have hmem := hinv _ (mem_of_slookup he)
      by_cases h1 : e.status ≠ .Funded
      · simpa [approve_release, he, h1] using hinv
      · by_cases h2 : caller = e.depositor ∨ caller = e.beneficiary ∨
            caller = e.arbiter
        · by_cases h3 : target = e.depositor ∨ target = e.beneficiary
          · by_cases h4 : caller ∈ signersFor st id target
            · simpa [approve_release, he, h1, h2, h3, h4] using hinv
            · have hnone : e.dispute_reason = none := by
                simp only [not_not] at h1
                rcases hr : e.dispute_reason with _ | r
                · rfl
                · exact absurd (hmem.mp (by simp [hr])) (by simp [h1])
              by_cases h5 : 1 ≤ (signersFor st id target).length
              · have hres : (approve_release st id caller target).1.escrows =
                    sset st.escrows id ({ e with status := .Released }) := by
                  simp [approve_release, he, h1, h2, h3, h4, h5]
                intro p hp
                rw [hres] at hp
                exact escrowInv_sset hinv _ (by simp [disputeInv, hnone]) p hp
              · have hres : (approve_release st id caller target).1.escrows =
                    st.escrows := by
                  simp [approve_release, he, h1, h2, h3, h4, h5]
                intro p hp
                rw [hres] at hp
                exact hinv p hp
          · simpa [approve_release, he, h1, h2, h3] using hinv
        · simpa [approve_release, he, h1, h2] using hinv
  · rcases he : slookup st.escrows id with _ | e
    · simpa [initiate_dispute, he] using hinv
    · by_cases h1 : e.status ≠ .Funded
      · simpa [initiate_dispute, he, h1] using hinv
      · by_cases h2 : caller = e.depositor ∨ caller = e.beneficiary
        · by_cases h3 : reason.length = 0
          · simpa [initiate_dispute, he, h1, h2, h3] using hinv
          · have hres : (initiate_dispute st id caller reason).1.escrows =
                sset st.escrows id ({ e with status := .Disputed, dispute_reason := some reason }) := by
              simp [initiate_dispute, he, h1, h2, h3]
            intro p hp
            rw [hres] at hp
            exact escrowInv_sset hinv _ (by simp [disputeInv]) p hp
        · simpa [initiate_dispute, he, h1, h2] using hinv
  · rcases he : slookup st.escrows id with _ | e
    · simpa [resolve_dispute, he] using hinv
    · by_cases h1 : e.status ≠ .Disputed
      · simpa [resolve_dispute, he, h1] using hinv
      · by_cases h2 : caller ≠ e.arbiter
        · simpa [resolve_dispute, he, h1, h2] using hinv
        · have hres : (resolve_dispute st id caller target).1.escrows =
              sset st.escrows id
                ({ e with status := .Released, dispute_reason := none }) := by
            simp [resolve_dispute, he, h1, h2]
          intro p hp
          rw [hres] at hp
          exact escrowInv_sset hinv _ (by simp [disputeInv]) p hp
  · intro hok
    rcases he : slookup st.escrows id with _ | e
    · simp [initiate_dispute, he] at hok
    · by_cases h1 : e.status ≠ .Funded
      · simp [initiate_dispute, he, h1] at hok
      · by_cases h2 : caller = e.depositor ∨ caller = e.beneficiary
        · by_cases h3 : reason.length = 0
          · simp [initiate_dispute, he, h1, h2, h3] at hok
          · have hres : (initiate_dispute st id caller reason).1.escrows =
                sset st.escrows id ({ e with status := .Disputed, dispute_reason := some reason }) := by
              simp [initiate_dispute, he, h1, h2, h3]
            exact ⟨_, by rw [hres]; exact slookup_sset_self _ _ _, rfl, rfl⟩
        · simp [initiate_dispute, he, h1, h2] at hok
  · intro hok
    rcases he : slookup st.escrows id with _ | e
    · simp [resolve_dispute, he] at hok
    · by_cases h1 : e.status ≠ .Disputed
      · simp [resolve_dispute, he, h1] at hok
      · by_cases h2 : caller ≠ e.arbiter
        · simp [resolve_dispute, he, h1, h2] at hok
        · have hres : (resolve_dispute st id caller target).1.escrows =
              sset st.escrows id
                ({ e with status := .Released, dispute_reason := none }) := by
            simp [resolve_dispute, he, h1, h2]
          exact ⟨_, by rw [hres]; exact slookup_sset_self _ _ _, rfl, rfl⟩

/-! ### Concrete fixtures for the closed witness theorems -/

/-- Concrete escrow identifier used by the witness theorems. -/
def wId : EscrowId := ⟨1, 2, 3, 5, 7, 0⟩

/-- A Funded escrow between depositor 1, beneficiary 2, arbiter 3. -/
def wEscrowFunded : Escrow := ⟨wId, 1, 2, 3, 5, 7, .Funded, 0, none⟩

/-- Escrow store holding `wEscrowFunded` with one recorded approval
by the depositor toward the beneficiary. -/
def wStA : EscrowState := ⟨[(wId, wEscrowFunded)], [((wId, 2), [1])]⟩

/-- Escrow store holding `wEscrowFunded` with no approvals. -/
def wStB : EscrowState := ⟨[(wId, wEscrowFunded)], []⟩

/-- A Pending agreement between landlord 10 and tenant 20. -/
def wAgr : RentAgreement := ⟨"A", 10, 20, none, 1000, 0, 0, 100, 0, .Pending, none⟩

/-- Rental store holding the Pending agreement `wAgr`. -/
def wRSt : RentalState := ⟨[("A", wAgr)], 0⟩

/-- The agreement `wAgr` still in Draft status. -/
def wAgrDraft : RentAgreement := { wAgr with status := .Draft }

/-- Rental store holding the Draft agreement `wAgrDraft`. -/
def wRStDraft : RentalState := ⟨[("A", wAgrDraft)], 0⟩

/-! ### Witness theorems -/

/-- Closed instance of C1 at the concrete fixtures. -/
theorem C1_witness :
    approve_release wStA wId 1 2 = (wStA, some .AlreadySigned) ∧
    (approve_release wStA wId 3 2).2 = none ∧
    slookup (approve_release wStA wId 3 2).1.escrows wId =
      some ({ wEscrowFunded with status := .Released }) ∧
    approvalCount (approve_release wStA wId 3 2).1 wId 1 = 0 ∧
    (approve_release wStB wId 1 2).2 = none ∧
    approvalCount (approve_release wStB wId 1 2).1 wId 2 = 1 := by
  refine ⟨?_, ?_, ?_, ?_, ?_, ?_⟩
  · exact (C1_approve_release_quorum.1 wStA wId wEscrowFunded 1 2
      (by decide) rfl (Or.inl rfl) (Or.inr rfl) (by decide)).1
  · exact (C1_approve_release_quorum.2.1 wStA wId wEscrowFunded 1 3 2
      (by decide) rfl (Or.inr (Or.inr rfl)) (Or.inr rfl) (by decide)
      (by decide)).1
  · exact (C1_approve_release_quorum.2.1 wStA wId wEscrowFunded 1 3 2
      (by decide) rfl (Or.inr (Or.inr rfl)) (Or.inr rfl) (by decide)
      (by decide)).2.1
  · exact (C1_approve_release_quorum.2.1 wStA wId wEscrowFunded 1 3 2
      (by decide) rfl (Or.inr (Or.inr rfl)) (Or.inr rfl) (by decide)
      (by decide)).2.2 1
  · exact (C1_approve_release_quorum.2.2 wStB wId wEscrowFunded 1 2 1
      (by decide) rfl (Or.inl rfl) (Or.inr rfl) (by decide) (by decide)).1
  · exact (C1_approve_release_quorum.2.2 wStB wId wEscrowFunded 1 2 1
      (by decide) rfl (Or.inl rfl) (Or.inr rfl) (by decide)
      (by decide)).2.2.1

/-- Closed instance of C2 at concrete inputs. -/
theorem C2_witness :
    (create_agreement RentalState.empty true "A" 1 2 none 0 0 0 1 0).1 =
      RentalState.empty ∧
    create_agreement RentalState.empty false "A" 1 2 none 5 0 0 1 0 =
      (RentalState.empty, .trap) :=
  ⟨(C2_create_agreement_error_no_mutation RentalState.empty true "A" 1 2
      none 0 0 0 1 0).1 .InvalidAmount (by decide),
   (C2_create_agreement_error_no_mutation RentalState.empty false "A" 1 2
      none 5 0 0 1 0).2 rfl⟩

/-- Closed instance of C3 at concrete inputs. -/
theorem C3_witness :
    validate_agreement_params 5 0 0 1 0 = none ∧
    validate_agreement_params 0 0 0 1 0 = some .InvalidAmount ∧
    validate_agreement_params 5 0 1 1 0 = some .InvalidDate ∧
    validate_agreement_params 5 0 0 1 101 = some .InvalidCommissionRate :=
  ⟨(C3_validate_params_characterization 5 0 0 1 0).1.mpr (by decide),
   (C3_validate_params_characterization 0 0 0 1 0).2.1 (Or.inl (by decide)),
   (C3_validate_params_characterization 5 0 1 1 0).2.2.1 (by decide)
     (by decide) (by decide),
   (C3_validate_params_characterization 5 0 0 1 101).2.2.2 (by decide)
     (by decide) (by decide) (by decide)⟩

/-- Closed instance of C4 at the concrete fixtures. -/
theorem C4_witness :
    sign_agreement wRSt true 20 "B" 5 = (wRSt, .err .AgreementNotFound) ∧
    sign_agreement wRSt true 99 "A" 5 = (wRSt, .err .NotTenant) ∧
    sign_agreement wRStDraft true 20 "A" 5 =
      (wRStDraft, .err .InvalidState) ∧
    sign_agreement wRSt true 20 "A" 101 = (wRSt, .err .Expired) ∧
    sign_agreement wRSt true 20 "A" 5 =
      (signAgreementUpdate wRSt "A" wAgr 5, .ok) :=
  ⟨(C4_sign_agreement_check_order wRSt 20 "B" 5).1 (by decide),
   (C4_sign_agreement_check_order wRSt 99 "A" 5).2.1 wAgr (by decide)
     (by decide),
   (C4_sign_agreement_check_order wRStDraft 20 "A" 5).2.2.1 wAgrDraft
     (by decide) rfl (by decide),
   (C4_sign_agreement_check_order wRSt 20 "A" 101).2.2.2.1 wAgr (by decide)
     rfl rfl (by decide),
   (C4_sign_agreement_check_order wRSt 20 "A" 5).2.2.2.2 wAgr (by decide)
     rfl rfl (by decide)⟩

/-- Closed instance of C5 at the concrete fixtures. -/
theorem C5_witness :
    escrowInv (initiate_dispute wStB wId 1 "damage").1 ∧
    (∃ e : Escrow,
      slookup (initiate_dispute wStB wId 1 "damage").1.escrows wId =
        some e ∧
      e.status = .Disputed ∧ e.dispute_reason = some "damage") := by
  have h := C5_dispute_invariant wStB (by decide) wId 1 2 1 2 3 5 7 0
    "damage"
  exact ⟨h.2.2.2.1, h.2.2.2.2.2.1 (by decide)⟩

/-- Closed instance of C6 at concrete inputs. -/
theorem C6_witness :
    (create_agreement RentalState.empty true "A" 1 2 none 5 0 0 1 0).2 =
      .ok ∧
    (∃ a : RentAgreement,
      get_agreement
        (create_agreement RentalState.empty true "A" 1 2 none 5 0 0 1 0).1
        "A" = some a ∧
      a.status = .Draft ∧ a.signed_at = none) ∧
    (create_agreement RentalState.empty true "A" 1 2 none 5 0 0 1 0).1.count =
      RentalState.empty.count + 1 :=
  C6_create_agreement_success RentalState.empty "A" 1 2 none 5 0 0 1 0
    (by decide) (by decide) (by decide) (by decide) rfl (by decide)

/-- Closed instance of C7 at concrete inputs. -/
theorem C7_witness :
    create_agreement
        (create_agreement RentalState.empty true "A" 1 2 none 5 0 0 1 0).1
        true "A" 3 4 none 6 0 0 2 1 =
      ((create_agreement RentalState.empty true "A" 1 2 none 5 0 0 1 0).1,
        .err .AgreementAlreadyExists) ∧
    (∃ a : RentAgreement,
      get_agreement
        (create_agreement
            (create_agreement RentalState.empty true "A" 1 2 none 5 0 0 1 0).1
            true "A" 3 4 none 6 0 0 2 1).1 "A" = some a ∧
      a.landlord = 1 ∧ a.tenant = 2 ∧ a.monthly_rent = 5 ∧
      a.status = .Draft) :=
  C7_duplicate_id_second_fails RentalState.empty "A" 1 2 none 5 0 0 1 0
    3 4 none 6 0 0 2 1 (by decide) (by decide) (by decide) (by decide)
    (by decide) (by decide) (by decide) (by decide) rfl (by decide)

/-- Closed instance of C8 at concrete inputs. -/
theorem C8_witness :
    create_escrow EscrowState.empty 1 2 3 0 7 0 =
      (EscrowState.empty, .error .InsufficientFunds) ∧
    create_escrow EscrowState.empty 1 1 3 5 7 0 =
      (EscrowState.empty, .error .InvalidSigner) :=
  ⟨(C8_create_escrow_validation EscrowState.empty 1 2 3 0 7 0).1 (by decide),
   (C8_create_escrow_validation EscrowState.empty 1 1 3 5 7 0).2
     (by decide) rfl⟩

/-- Closed instance of C9 at concrete inputs. -/
theorem C9_witness :
    ∃ id1 id2 : EscrowId, ∃ e1 e2 : Escrow,
      (create_escrow EscrowState.empty 1 2 3 5 7 0).2 = .ok id1 ∧
      (create_escrow (create_escrow EscrowState.empty 1 2 3 5 7 0).1
          1 2 3 5 7 1).2 = .ok id2 ∧
      id1 ≠ id2 ∧
      get_escrow (create_escrow (create_escrow EscrowState.empty 1 2 3 5 7 0).1
          1 2 3 5 7 1).1 id1 = .ok e1 ∧
      e1.id = id1 ∧ e1.created_at = 0 ∧
      get_escrow (create_escrow (create_escrow EscrowState.empty 1 2 3 5 7 0).1
          1 2 3 5 7 1).1 id2 = .ok e2 ∧
      e2.id = id2 ∧ e2.created_at = 1 :=
  C9_unique_escrow_ids EscrowState.empty 1 2 3 5 7 0 1 (by decide)
    (by decide) (by decide)

/-- Closed instance of C10 at concrete inputs. -/
theorem C10_witness :
    (create_agreement ⟨[], UINT32_MAX⟩ true "A" 1 2 none 5 0 0 1 0).2 =
      .trap ∧
    (create_agreement ⟨[], 0⟩ true "A" 1 2 none 5 0 0 1 0).2 = .ok :=
  ⟨((C10_counter_overflow ⟨[], UINT32_MAX⟩ "A" 1 2 none 5 0 0 1 0
      (by decide) (by decide) (by decide) (by decide) rfl).1 rfl).1,
   (C10_counter_overflow ⟨[], 0⟩ "A" 1 2 none 5 0 0 1 0
      (by decide) (by decide) (by decide) (by decide) rfl).2 (by decide)⟩

end Chioma
